import Mathlib

/-!
Verification of the `glucp_JPGlucose.h` JNI binding header of Jdrasil's
bundled parallel-Glucose SAT solver, together with a model of the
solver-handle protocol the header implies.

The header declares five native entry points
(`ginit`, `gadd`, `gsat`, `gsat_time`, `gderef`).  We embed the declared
signatures as data, and model the behaviour of the (absent) native engine
from the specification's protocol description.
-/

namespace Glucp

/-- JNI-level value types that occur in (or are relevant to) the header's
declarations.  `jniEnvPtr` is the `JNIEnv *` call-context parameter,
`jclass` the class reference of a static native method, `jobject` the
object reference an instance native method would take instead. -/
inductive JType where
  | jlong
  | jboolean
  | jint
  | jintArray
  | jniEnvPtr
  | jclass
  | jobject
deriving DecidableEq

/-- Bit width of the primitive JNI types (JNI: `jlong` 64-bit,
`jint` 32-bit signed, `jboolean` 8-bit); 0 for reference types. -/
def bitWidth : JType → Nat
  | .jlong => 64
  | .jint => 32
  | .jboolean => 8
  | _ => 0

/-- Element type of a JNI array type, `none` for non-array types. -/
def elemType : JType → Option JType
  | .jintArray => some .jint
  | _ => none

/-- One declared native entry point: Java-side method name, exported C
symbol, JVM type signature string, call-context parameters, the explicit
parameters after them, and the return type. -/
structure EntryPoint where
  name : String
  symbol : String
  javaSig : String
  contextParams : List JType
  params : List JType
  ret : JType
deriving DecidableEq

/-- `JNIEXPORT jlong JNICALL Java_glucp_JPGlucose_ginit (JNIEnv *, jclass);` -/
def ginitEP : EntryPoint :=
  { name := "ginit", symbol := "Java_glucp_JPGlucose_ginit", javaSig := "()J"
    contextParams := [.jniEnvPtr, .jclass], params := [], ret := .jlong }

/-- `JNIEXPORT jboolean JNICALL Java_glucp_JPGlucose_gadd (JNIEnv *, jclass, jlong, jintArray);` -/
def gaddEP : EntryPoint :=
  { name := "gadd", symbol := "Java_glucp_JPGlucose_gadd", javaSig := "(J[I)Z"
    contextParams := [.jniEnvPtr, .jclass], params := [.jlong, .jintArray], ret := .jboolean }

/-- `JNIEXPORT jboolean JNICALL Java_glucp_JPGlucose_gsat (JNIEnv *, jclass, jlong);` -/
def gsatEP : EntryPoint :=
  { name := "gsat", symbol := "Java_glucp_JPGlucose_gsat", javaSig := "(J)Z"
    contextParams := [.jniEnvPtr, .jclass], params := [.jlong], ret := .jboolean }

/-- `JNIEXPORT jboolean JNICALL Java_glucp_JPGlucose_gsat_1time (JNIEnv *, jclass, jlong, jint);` -/
def gsatTimeEP : EntryPoint :=
  { name := "gsat_time", symbol := "Java_glucp_JPGlucose_gsat_1time", javaSig := "(JI)Z"
    contextParams := [.jniEnvPtr, .jclass], params := [.jlong, .jint], ret := .jboolean }

/-- `JNIEXPORT jint JNICALL Java_glucp_JPGlucose_gderef (JNIEnv *, jclass, jlong, jint);` -/
def gderefEP : EntryPoint :=
  { name := "gderef", symbol := "Java_glucp_JPGlucose_gderef", javaSig := "(JI)I"
    contextParams := [.jniEnvPtr, .jclass], params := [.jlong, .jint], ret := .jint }

/-- The full declaration surface of `glucp_JPGlucose.h`, in header order. -/
def glucp_JPGlucose : List EntryPoint :=
  [ginitEP, gaddEP, gsatEP, gsatTimeEP, gderefEP]

/-- `pat` occurs as a prefix of `s` (on character lists). -/
def prefixAt : List Char → List Char → Bool
  | [], _ => true
  | _ :: _, [] => false
  | a :: as, b :: bs => a == b && prefixAt as bs

/-- `pat` occurs as a contiguous substring of `s` (on character lists). -/
def hasSub (pat : List Char) : List Char → Bool
  | [] => pat.isEmpty
  | c :: rest => prefixAt pat (c :: rest) || hasSub pat rest

/-- `pat` occurs as a contiguous substring of `s`. -/
def containsSub (s pat : String) : Bool :=
  hasSub pat.data s.data

/-- Words that would name a destruction, reset or cancellation operation. -/
def teardownWords : List String :=
  ["destroy", "free", "release", "delete", "reset", "clear", "cancel", "close"]

/-! ## The solver-handle protocol, modelled from the spec

The native engine behind the header is not part of the supplied sources;
the definitions below are modelled from the specification's description of
the opaque-handle protocol (clause database, solve populating an
assignment, deref reading it). -/

/-- A clause: an ordered sequence of signed-integer literals (positive =
variable asserted true, negative = negated variable, magnitude = variable
index). -/
abbrev Clause := List Int

/-- An assignment maps a variable index to a truth value. -/
abbrev Assignment := Nat → Bool

/-- Variable index of a literal: its magnitude. -/
def litVar (l : Int) : Nat := l.natAbs

/-- Truth value of a literal under an assignment. -/
def evalLit (a : Assignment) (l : Int) : Bool :=
  if 0 < l then a (litVar l) else !a (litVar l)

/-- A clause is a disjunction of its literals. -/
def evalClause (a : Assignment) (c : Clause) : Bool :=
  c.any (evalLit a)

/-- A clause database is a conjunction of its clauses. -/
def evalCNF (a : Assignment) (cs : List Clause) : Bool :=
  cs.all (evalClause a)

/-- A clause is well formed when no literal is 0 (a literal's magnitude is
a variable index, so 0 names no variable). -/
def validClause (c : Clause) : Bool :=
  c.all (fun l => l != 0)

/-- Largest variable index mentioned in a clause. -/
def clauseMaxVar (c : Clause) : Nat :=
  (c.map litVar).foldr max 0

/-- Largest variable index mentioned in a clause database. -/
def maxVar (cs : List Clause) : Nat :=
  (cs.map clauseMaxVar).foldr max 0

/-- The assignment encoded by the bits of `m`. -/
def assignOf (m : Nat) : Assignment :=
  fun v => m.testBit v

/-- Modelled from the spec: the absent native search engine, as a complete
search over all assignments of the variables mentioned in the database;
returns an encoded satisfying assignment when one exists. -/
def findSat (cs : List Clause) : Option Nat :=
  (List.range (2 ^ (maxVar cs + 1))).find? (fun m => evalCNF (assignOf m) cs)

/-- Modelled from the spec: a solver instance holds its accumulated clause
database and, after a successful solve, the assignment it found. -/
structure SolverState where
  clauses : List Clause
  model : Option Nat
deriving DecidableEq

/-- A freshly created instance: empty clause database, no assignment. -/
def emptyInst : SolverState := ⟨[], none⟩

/-- Modelled from the spec: the native side's resource table — a handle
counter and a map from handles to exclusively owned instances. -/
structure GlucoseState where
  nextHandle : Nat
  insts : List (Nat × SolverState)
deriving DecidableEq

/-- The native library's state before any call: no instances. -/
def initState : GlucoseState := ⟨0, []⟩

/-- Look a handle up in the resource table (first binding wins). -/
def lookupInst : List (Nat × SolverState) → Nat → Option SolverState
  | [], _ => none
  | (k, s) :: rest, h => if k = h then some s else lookupInst rest h

/-- Rebind a handle in the resource table. -/
def setInst (g : GlucoseState) (h : Nat) (s : SolverState) : GlucoseState :=
  { g with insts := (h, s) :: g.insts }

/-- Modelled from the spec: `create() → handle` — allocates a fresh solver
instance with an empty clause database and returns its handle,
unconditionally. -/
def ginit (g : GlucoseState) : Nat × GlucoseState :=
  (g.nextHandle, ⟨g.nextHandle + 1, (g.nextHandle, emptyInst) :: g.insts⟩)

/-- Appending a clause to an instance, keeping ill-formed clauses out. -/
def addClauseInst (s : SolverState) (c : Clause) : SolverState :=
  if validClause c then { s with clauses := s.clauses ++ [c] } else s

/-- Modelled from the spec: `add_clause(handle, literals) → accepted` —
appends the clause to the instance's database; returns `false` (rather
than faulting) on an invalid handle or a malformed clause. -/
def gadd (g : GlucoseState) (h : Nat) (c : Clause) : Bool × GlucoseState :=
  match lookupInst g.insts h with
  | none => (false, g)
  | some s =>
      if validClause c then
        (true, setInst g h { s with clauses := s.clauses ++ [c] })
      else (false, g)

/-- Modelled from the spec: `solve(handle) → satisfiable` — runs the
search over the current clause database, stores the found assignment for
later `deref` queries, and returns satisfiability; `false` on an invalid
handle. -/
def gsat (g : GlucoseState) (h : Nat) : Bool × GlucoseState :=
  match lookupInst g.insts h with
  | none => (false, g)
  | some s =>
      match findSat s.clauses with
      | some m => (true, setInst g h { s with model := some m })
      | none => (false, setInst g h { s with model := none })

/-- Modelled from the spec: `deref(handle, variable_index) → value` —
reads the truth value the most recent successful solve assigned to the
variable, as 1 (true) or 0 (false); unconstrained by the interface before
a successful solve, modelled as the arbitrary default 0. -/
def gderef (g : GlucoseState) (h : Nat) (v : Nat) : Int :=
  match lookupInst g.insts h with
  | none => 0
  | some s =>
      match s.model with
      | none => 0
      | some m => if assignOf m v then 1 else 0

/-- The clause database accumulated on a given handle. -/
def clausesOf (g : GlucoseState) (h : Nat) : List Clause :=
  match lookupInst g.insts h with
  | none => []
  | some s => s.clauses

/-- Modelled from the spec: the three real outcomes of a bounded solve
call. -/
inductive SolveOutcome where
  | satisfiable
  | unsatisfiable
  | timedOut
deriving DecidableEq

/-- Modelled from the spec: the projection of a solve outcome onto the
single boolean the interface returns — unsatisfiable and timed-out both
collapse to `false`. -/
def solveOutcomeToBool : SolveOutcome → Bool
  | .satisfiable => true
  | .unsatisfiable => false
  | .timedOut => false

/-- A full protocol run on a fresh instance: `create`, then the given
sequence of `add_clause` calls on its handle, then `solve`; yields the
boolean `solve` returns. -/
def runClauses (g : GlucoseState) (cs : List Clause) : Bool :=
  (gsat (cs.foldl (fun gs c => (gadd gs (ginit g).fst c).snd) (ginit g).snd)
    (ginit g).fst).fst

/-- The spec's example scenario: a fresh instance (handle 0) holding the
clauses `[1, 2]` (x1 or x2) and `[-1]` (not x1). -/
def demoState : GlucoseState :=
  (gadd (gadd (ginit initState).snd 0 [1, 2]).snd 0 [-1]).snd

/-! ## Helper lemmas -/

/-- Looking up a handle right after rebinding it yields the new state. -/
theorem lookupInst_setInst (g : GlucoseState) (h : Nat) (s : SolverState) :
    lookupInst (setInst g h s).insts h = some s := by
  simp [setInst, lookupInst]

/-- A run of `gadd` calls on handle `h` accumulates, at `h`, exactly the
fold of `addClauseInst` over the submitted clauses, whatever else the
resource table holds. -/
theorem lookupInst_foldl_gadd (cs : List Clause) (g : GlucoseState)
    (h : Nat) (s : SolverState) (hl : lookupInst g.insts h = some s) :
    lookupInst ((cs.foldl (fun gs c => (gadd gs h c).snd) g).insts) h
      = some (cs.foldl addClauseInst s) := by
  induction cs generalizing g s with
  | nil => simpa using hl
  | cons c cs ih =>
      simp only [List.foldl_cons]
      apply ih
      unfold gadd addClauseInst
      rw [hl]
      by_cases hv : validClause c
      · simp [hv, lookupInst_setInst]
      · simp [hv, hl]

/-- `runClauses` depends only on the clause sequence: it equals whether
the modelled search finds an assignment for the accepted clauses. -/
theorem runClauses_eq_findSat (g : GlucoseState) (cs : List Clause) :
    runClauses g cs = (findSat ((cs.foldl addClauseInst emptyInst).clauses)).isSome := by
  unfold runClauses
  have h0 : lookupInst ((ginit g).snd).insts (ginit g).fst = some emptyInst := by
    simp [ginit, lookupInst]
  have hfold := lookupInst_foldl_gadd cs (ginit g).snd (ginit g).fst emptyInst h0
  unfold gsat
  rw [hfold]
  cases hf : findSat ((cs.foldl addClauseInst emptyInst).clauses) <;> simp [hf]

/-! ## Claim theorems -/

/-- Claim C1: the header declares exactly five entry points — `ginit`
(initialize a solver instance), `gadd` (add a clause), `gsat` (solve with
no time bound), `gsat_time` (solve with a time bound), `gderef` (query an
assigned value) — and no declared name (Java method or exported C symbol)
names a destruction, reset, or cancel operation. -/
theorem interface_declares_five_entry_points :
    glucp_JPGlucose.map EntryPoint.name = ["ginit", "gadd", "gsat", "gsat_time", "gderef"]
      ∧ glucp_JPGlucose.length = 5
      ∧ (glucp_JPGlucose.all fun ep =>
          teardownWords.all fun w =>
            !containsSub ep.name w && !containsSub ep.symbol w) = true := by
  refine ⟨rfl, rfl, ?_⟩
  decide

/-- Claim C2: both solve entry points return the single boolean JNI type,
the timed variant takes its bound as a 32-bit `jint`, and in the
spec-modelled outcome projection both "proved unsatisfiable" and "timed
out without a proof" collapse to `false`, so the boolean return domain
distinguishes neither. -/
theorem solve_boolean_collapses_unsat_and_timeout :
    gsatEP.ret = JType.jboolean
      ∧ gsatTimeEP.ret = JType.jboolean
      ∧ gsatTimeEP.params = [JType.jlong, JType.jint]
      ∧ bitWidth JType.jint = 32
      ∧ solveOutcomeToBool SolveOutcome.unsatisfiable = false
      ∧ solveOutcomeToBool SolveOutcome.timedOut = false
      ∧ solveOutcomeToBool SolveOutcome.unsatisfiable
          = solveOutcomeToBool SolveOutcome.timedOut :=
  ⟨rfl, rfl, rfl, rfl, rfl, rfl, rfl⟩

/-- Claim C3: whenever `gsat` returns true on a handle, the assignment
read back variable-by-variable through `gderef` on the resulting state
makes every clause previously submitted via `gadd` on that handle
evaluate true. -/
theorem gsat_true_deref_satisfies_clauses (g : GlucoseState) (h : Nat)
    (hsat : (gsat g h).fst = true) :
    evalCNF (fun v => gderef (gsat g h).snd h v == 1) (clausesOf g h) = true := by
  cases hl : lookupInst g.insts h with
  | none =>
      have hg : gsat g h = (false, g) := by unfold gsat; rw [hl]
      rw [hg] at hsat
      simp at hsat
  | some s =>
      have hg : gsat g h
          = match findSat s.clauses with
            | some m => (true, setInst g h { s with model := some m })
            | none => (false, setInst g h { s with model := none }) := by
        unfold gsat; rw [hl]
      cases hf : findSat s.clauses with
      | none =>
          rw [hf] at hg
          rw [hg] at hsat
          simp at hsat
      | some m =>
          rw [hf] at hg
          rw [hg]
          have hfix : (fun v => gderef (setInst g h { s with model := some m }) h v == 1)
              = assignOf m := by
            funext v
            unfold gderef
            rw [lookupInst_setInst]
            by_cases hb : assignOf m v <;> simp [hb]
          have hfind : evalCNF (assignOf m) s.clauses = true := by
            have hpred := List.find?_some (show (List.range (2 ^ (maxVar s.clauses + 1))).find?
                (fun m => evalCNF (assignOf m) s.clauses) = some m by
              unfold findSat at hf; exact hf)
            simpa using hpred
          simp only [hfix]
          simpa [clausesOf, hl] using hfind

/-- Witness for C3 on the spec's example scenario: clauses `[1, 2]` and
`[-1]` on a fresh handle; `gsat` returns true and the assignment read
through `gderef` satisfies both clauses. -/
theorem gsat_true_deref_satisfies_clauses_witness :
    (gsat demoState 0).fst = true
      ∧ evalCNF (fun v => gderef (gsat demoState 0).snd 0 v == 1)
          (clausesOf demoState 0) = true :=
  ⟨by decide, gsat_true_deref_satisfies_clauses demoState 0 (by decide)⟩

/-- Claim C4: a fresh instance driven with the same clause sequence
always reproduces the same satisfiability outcome — the boolean returned
by `solve` after `create` and the given `add_clause` calls does not
depend on the pre-existing library state. -/
theorem fresh_instance_solve_deterministic (g₁ g₂ : GlucoseState) (cs : List Clause) :
    runClauses g₁ cs = runClauses g₂ cs := by
  rw [runClauses_eq_findSat, runClauses_eq_findSat]

/-- Claim C5: `ginit` takes no inputs beyond the call-context parameters
(`JNIEnv *`, `jclass`), returns the 64-bit handle type `jlong`, and the
modelled operation returns a handle unconditionally — no failure mode is
representable. -/
theorem ginit_no_inputs_returns_handle_unconditionally :
    ginitEP.params = []
      ∧ ginitEP.contextParams = [JType.jniEnvPtr, JType.jclass]
      ∧ ginitEP.ret = JType.jlong
      ∧ bitWidth JType.jlong = 64
      ∧ ∀ g : GlucoseState, ∃ h g', ginit g = (h, g') :=
  ⟨rfl, rfl, rfl, rfl, fun g => ⟨(ginit g).fst, (ginit g).snd, rfl⟩⟩

/-- Claim C6: `gadd` takes a handle and one clause as a `jintArray` of
32-bit signed integers and returns a `jboolean` accepted/rejected status;
rejection is a returned `false` (unknown handle in the empty initial
state, or a malformed clause such as `[0]`), not a fault. -/
theorem gadd_signature_and_boolean_rejection :
    gaddEP.params = [JType.jlong, JType.jintArray]
      ∧ gaddEP.ret = JType.jboolean
      ∧ elemType JType.jintArray = some JType.jint
      ∧ bitWidth JType.jint = 32
      ∧ (∀ h c, (gadd initState h c).fst = false)
      ∧ (∀ g h, (gadd g h [(0 : Int)]).fst = false) := by
  refine ⟨rfl, rfl, rfl, rfl, fun h c => rfl, fun g h => ?_⟩
  unfold gadd
  cases lookupInst g.insts h <;> simp [validClause]

/-- Claim C7: `gderef` takes a handle and a 32-bit `jint` variable index
and returns a 32-bit `jint` assigned value; a freshly created instance
carries no assignment (`model = none`), so before any solve there is
nothing for `gderef` to read — the interface leaves that case
unspecified. -/
theorem gderef_signature_valid_post_solve :
    gderefEP.params = [JType.jlong, JType.jint]
      ∧ gderefEP.ret = JType.jint
      ∧ bitWidth JType.jint = 32
      ∧ (∀ g : GlucoseState,
          lookupInst ((ginit g).snd).insts (ginit g).fst = some emptyInst)
      ∧ emptyInst.model = none := by
  refine ⟨rfl, rfl, rfl, fun g => ?_, rfl⟩
  simp [ginit, lookupInst]

/-- Claim C8: every declared entry point except `ginit` takes the 64-bit
handle (`jlong`) as its first explicit argument after the call-context
parameters, and `ginit` alone takes no handle (its explicit parameter
list is empty). -/
theorem handle_first_param_except_ginit :
    (glucp_JPGlucose.all fun ep =>
        if ep = ginitEP then ep.params.isEmpty
        else decide (ep.params.head? = some JType.jlong)) = true := by
  decide

/-- Claim C9: all five entry points are static native-method bindings —
each takes call-context parameters `(JNIEnv *, jclass)`, a class
reference rather than a `jobject` instance reference — so the only solver
identity crossing the boundary is the explicit `jlong` handle argument of
the non-create operations. -/
theorem all_entry_points_static_class_level :
    (glucp_JPGlucose.all fun ep =>
        decide (ep.contextParams = [JType.jniEnvPtr, JType.jclass])) = true
      ∧ (glucp_JPGlucose.all fun ep =>
          !(ep.contextParams.contains JType.jobject)) = true
      ∧ (glucp_JPGlucose.all fun ep =>
          decide (ep = ginitEP) || decide (ep.params.head? = some JType.jlong)) = true := by
  refine ⟨?_, ?_, ?_⟩ <;> decide

/-- Claim C10: `ginit` is the only declared entry point whose return type
is the 64-bit handle type `jlong`; every other entry point consumes a
handle and returns `jboolean` or `jint`. -/
theorem ginit_only_handle_source :
    glucp_JPGlucose.filter (fun ep => decide (ep.ret = JType.jlong)) = [ginitEP]
      ∧ (glucp_JPGlucose.all fun ep =>
          decide (ep = ginitEP)
            || decide (ep.ret = JType.jboolean)
            || decide (ep.ret = JType.jint)) = true := by
  refine ⟨?_, ?_⟩ <;> decide

end Glucp
